import Mathlib

/-!
# Verification of the Slide Deck Agent repository

Shallow embedding, in Lean 4, of the parts of the
`slide_deck_agent` Python package that the specification's claims are
about, together with theorems settling each claim.

Conventions of the embedding:
* Python `float` values are modelled as `ℚ` (all the arithmetic in the
  repository's geometry code is exact field arithmetic: sums, products,
  divisions by nonzero constants).
* Python dictionaries with a fixed shape become Lean structures; code
  that can raise an exception returns `Except PyExc _`.
* Functions keep the Python names (`snake_case`) wherever Lean allows.
-/

/-- Python exceptions that the embedded code can raise.  `str` of a
`KeyError` is the `repr` of the missing key, i.e. the key wrapped in
single quotes. -/
inductive PyExc where
  | keyError (key : String)
  | zeroDivisionError
  | valueError (msg : String)
  deriving DecidableEq, Repr

/-- Python `str(e)` for an exception: `str(KeyError(k))` is `repr(k)`,
the key wrapped in single quotes. -/
def PyExc.toStr : PyExc → String
  | .keyError k => "\x27" ++ k ++ "\x27"
  | .zeroDivisionError => "integer division or modulo by zero"
  | .valueError m => m

/-!
## `llapi/annotation_placer.py` — local placement arithmetic

`AnnotationPlacer._calculate_placement_locally` receives the geometry of
two bars (pixel coordinates at the 144 DPI reference resolution) and a
label text, and returns the placement of a dashed difference line and of
its label.
-/

/-- Geometry of one chart bar, in pixels: the dict
`{left_edge_x, right_edge_x, top_edge_y}` passed to the placer. -/
structure BarGeom where
  left_edge_x : ℚ
  right_edge_x : ℚ
  top_edge_y : ℚ
  deriving DecidableEq, Repr

/-- The `input_data` dict built by `place_difference_line`
(`chart_type` and `annotation_type` are the constants `"column"` and
`"difference_line"` and are omitted). -/
structure InputData where
  bar1 : BarGeom
  bar2 : BarGeom
  label_text : String
  deriving DecidableEq, Repr

/-- The `line` part of the returned placement dict. -/
structure LinePlacement where
  type_ : String
  color : String
  start_y : ℚ
  end_y : ℚ
  position_x : ℚ
  deriving DecidableEq, Repr

/-- The `label` part of the returned placement dict. -/
structure LabelPlacement where
  text : String
  position_x : ℚ
  vertical_center_y : ℚ
  placement_side : String
  deriving DecidableEq, Repr

/-- The full placement dict returned by the placer. -/
structure Placement where
  line : LinePlacement
  label : LabelPlacement
  deriving DecidableEq, Repr

/-- `AnnotationPlacer._calculate_placement_locally`
(src/slide_deck_agent/llapi/annotation_placer.py, lines 125-171):
gutter midpoint, line heights from the bar tops, label 10 px to the
right with a 100 px width estimate, moved to the left on collision. -/
def calculate_placement_locally (input_data : InputData) : Placement :=
  let bar1 := input_data.bar1
  let bar2 := input_data.bar2
  let label_text := input_data.label_text
  -- RULE 1: Calculate the Gutter
  let gutter_centerline := (bar1.right_edge_x + bar2.left_edge_x) / 2
  -- RULE 2: Set Line Height
  let line_start_y := bar1.top_edge_y
  let line_end_y := bar2.top_edge_y
  -- RULE 3: Position the Label
  let vertical_center_y := (line_start_y + line_end_y) / 2
  let label_padding : ℚ := 10
  let label_width_estimate : ℚ := 100
  let label_x := gutter_centerline + label_padding
  let placement_side := "right"
  -- RULE 4: Collision Avoidance
  let (label_x, placement_side) :=
    if label_x + label_width_estimate > bar2.left_edge_x then
      (gutter_centerline - label_padding - label_width_estimate, "left")
    else
      (label_x, placement_side)
  { line :=
      { type_ := "dashed"
        color := "Negative Red"
        start_y := line_start_y
        end_y := line_end_y
        position_x := gutter_centerline }
    label :=
      { text := label_text
        position_x := label_x
        vertical_center_y := vertical_center_y
        placement_side := placement_side } }

/-- `MainSlideGeneratorSkill._visual_design_ai_place_difference_line`
(src/slide_deck_agent/skills/main_slide_generator.py, lines 1715-1774):
same rules, but with a 144 px label width estimate. -/
def visual_design_ai_place_difference_line
    (bar1 bar2 : BarGeom) (label_text : String) : Placement :=
  -- RULE 1: Calculate the Gutter Centerline
  let gutter_centerline := (bar1.right_edge_x + bar2.left_edge_x) / 2
  -- RULE 2: Set Line Height (bar tops)
  let line_start_y := bar1.top_edge_y
  let line_end_y := bar2.top_edge_y
  -- RULE 3: Position the Label
  let vertical_center_y := (line_start_y + line_end_y) / 2
  let label_padding : ℚ := 10
  let label_width_estimate : ℚ := 144
  let label_x := gutter_centerline + label_padding
  let placement_side := "right"
  -- RULE 4: Collision Avoidance
  let (label_x, placement_side) :=
    if label_x + label_width_estimate > bar2.left_edge_x then
      (gutter_centerline - label_padding - label_width_estimate, "left")
    else
      (label_x, placement_side)
  { line :=
      { type_ := "dashed"
        color := "Negative Red"
        start_y := line_start_y
        end_y := line_end_y
        position_x := gutter_centerline }
    label :=
      { text := label_text
        position_x := label_x
        vertical_center_y := vertical_center_y
        placement_side := placement_side } }

/-- Closed form of `calculate_placement_locally`. -/
theorem calc_local_closed (b1 b2 : BarGeom) (t : String) :
    calculate_placement_locally ⟨b1, b2, t⟩ =
      if (b1.right_edge_x + b2.left_edge_x) / 2 + 10 + 100 > b2.left_edge_x then
        ⟨⟨"dashed", "Negative Red", b1.top_edge_y, b2.top_edge_y,
            (b1.right_edge_x + b2.left_edge_x) / 2⟩,
          ⟨t, (b1.right_edge_x + b2.left_edge_x) / 2 - 10 - 100,
            (b1.top_edge_y + b2.top_edge_y) / 2, "left"⟩⟩
      else
        ⟨⟨"dashed", "Negative Red", b1.top_edge_y, b2.top_edge_y,
            (b1.right_edge_x + b2.left_edge_x) / 2⟩,
          ⟨t, (b1.right_edge_x + b2.left_edge_x) / 2 + 10,
            (b1.top_edge_y + b2.top_edge_y) / 2, "right"⟩⟩ := by
  unfold calculate_placement_locally
  by_cases h : (b1.right_edge_x + b2.left_edge_x) / 2 + 10 + 100 >
      b2.left_edge_x <;> simp [h]

/-- Closed form of `visual_design_ai_place_difference_line`. -/
theorem vdai_closed (b1 b2 : BarGeom) (t : String) :
    visual_design_ai_place_difference_line b1 b2 t =
      if (b1.right_edge_x + b2.left_edge_x) / 2 + 10 + 144 > b2.left_edge_x then
        ⟨⟨"dashed", "Negative Red", b1.top_edge_y, b2.top_edge_y,
            (b1.right_edge_x + b2.left_edge_x) / 2⟩,
          ⟨t, (b1.right_edge_x + b2.left_edge_x) / 2 - 10 - 144,
            (b1.top_edge_y + b2.top_edge_y) / 2, "left"⟩⟩
      else
        ⟨⟨"dashed", "Negative Red", b1.top_edge_y, b2.top_edge_y,
            (b1.right_edge_x + b2.left_edge_x) / 2⟩,
          ⟨t, (b1.right_edge_x + b2.left_edge_x) / 2 + 10,
            (b1.top_edge_y + b2.top_edge_y) / 2, "right"⟩⟩ := by
  unfold visual_design_ai_place_difference_line
  by_cases h : (b1.right_edge_x + b2.left_edge_x) / 2 + 10 + 144 >
      b2.left_edge_x <;> simp [h]

/-- C2: the local placement arithmetic of the Visual Design AI fallback:
line at the gutter midpoint between the two bars, line endpoints at the
bar tops, label vertically centred between them, label placed 10 px
right of the line exactly when it fits (estimated 100 px wide) left of
bar2, otherwise 110 px left of the line. -/
theorem C2_calculate_placement_locally_correct
    (bar1 bar2 : BarGeom) (label_text : String) :
    (calculate_placement_locally ⟨bar1, bar2, label_text⟩).line.position_x =
        (bar1.right_edge_x + bar2.left_edge_x) / 2 ∧
    (calculate_placement_locally ⟨bar1, bar2, label_text⟩).line.start_y =
        bar1.top_edge_y ∧
    (calculate_placement_locally ⟨bar1, bar2, label_text⟩).line.end_y =
        bar2.top_edge_y ∧
    (calculate_placement_locally ⟨bar1, bar2, label_text⟩).label.vertical_center_y =
        (bar1.top_edge_y + bar2.top_edge_y) / 2 ∧
    (((bar1.right_edge_x + bar2.left_edge_x) / 2 + 10 + 100 ≤ bar2.left_edge_x ∧
        (calculate_placement_locally ⟨bar1, bar2, label_text⟩).label.position_x =
          (bar1.right_edge_x + bar2.left_edge_x) / 2 + 10 ∧
        (calculate_placement_locally ⟨bar1, bar2, label_text⟩).label.placement_side =
          "right") ∨
      (¬ ((bar1.right_edge_x + bar2.left_edge_x) / 2 + 10 + 100 ≤
            bar2.left_edge_x) ∧
        (calculate_placement_locally ⟨bar1, bar2, label_text⟩).label.position_x =
          (bar1.right_edge_x + bar2.left_edge_x) / 2 - 10 - 100 ∧
        (calculate_placement_locally ⟨bar1, bar2, label_text⟩).label.placement_side =
          "left")) := by
  rw [calc_local_closed]
  by_cases h : (bar1.right_edge_x + bar2.left_edge_x) / 2 + 10 + 100 >
      bar2.left_edge_x
  · rw [if_pos h]
    exact ⟨rfl, rfl, rfl, rfl, Or.inr ⟨not_le.mpr h, rfl, rfl⟩⟩
  · rw [if_neg h]
    exact ⟨rfl, rfl, rfl, rfl, Or.inl ⟨le_of_not_lt h, rfl, rfl⟩⟩

/-- C3 counterexample: the two implementations do NOT return equal
placements for every input.  With bar1 = (0, 0, 0) and
bar2 = (250, 300, 100), the placer keeps the label on the right
(gutter 125, label at 135, and 135 + 100 ≤ 250), while the generator's
variant moves it to the left (135 + 144 > 250), so the label
position_x and placement_side differ. -/
theorem C3_counterexample :
    calculate_placement_locally
        ⟨⟨0, 0, 0⟩, ⟨250, 300, 100⟩, "d"⟩ ≠
      visual_design_ai_place_difference_line
        ⟨0, 0, 0⟩ ⟨250, 300, 100⟩ "d" := by
  intro h
  have hs := congrArg (fun p => p.label.placement_side) h
  rw [calc_local_closed, vdai_closed] at hs
  rw [if_neg (by norm_num), if_pos (by norm_num)] at hs
  simp at hs

/-- C3 amended: the two implementations always agree on the line
(position, start, end) and on the label's vertical centre and text, and
they return fully equal placements exactly when the gutter midpoint plus
154 px does not pass bar2's left edge (then both place the label on the
right); otherwise they differ, because the placer estimates the label
width as 100 px while the generator's variant estimates 144 px. -/
theorem C3_amended_agreement (bar1 bar2 : BarGeom) (label_text : String) :
    (calculate_placement_locally ⟨bar1, bar2, label_text⟩).line =
        (visual_design_ai_place_difference_line bar1 bar2 label_text).line ∧
    (calculate_placement_locally ⟨bar1, bar2, label_text⟩).label.text =
        (visual_design_ai_place_difference_line bar1 bar2 label_text).label.text ∧
    (calculate_placement_locally ⟨bar1, bar2, label_text⟩).label.vertical_center_y =
        (visual_design_ai_place_difference_line bar1 bar2
            label_text).label.vertical_center_y ∧
    (calculate_placement_locally ⟨bar1, bar2, label_text⟩ =
        visual_design_ai_place_difference_line bar1 bar2 label_text ↔
      (bar1.right_edge_x + bar2.left_edge_x) / 2 + 154 ≤ bar2.left_edge_x) := by
  rw [calc_local_closed, vdai_closed]
  by_cases h1 : (bar1.right_edge_x + bar2.left_edge_x) / 2 + 10 + 100 >
      bar2.left_edge_x
  · have h2 : (bar1.right_edge_x + bar2.left_edge_x) / 2 + 10 + 144 >
        bar2.left_edge_x := by linarith
    rw [if_pos h1, if_pos h2]
    refine ⟨rfl, rfl, rfl, ?_⟩
    constructor
    · intro hpq
      have hx := congrArg (fun p => p.label.position_x) hpq
      simp only at hx
      linarith
    · intro hle
      linarith
  · rw [if_neg h1]
    by_cases h2 : (bar1.right_edge_x + bar2.left_edge_x) / 2 + 10 + 144 >
        bar2.left_edge_x
    · rw [if_pos h2]
      refine ⟨rfl, rfl, rfl, ?_⟩
      constructor
      · intro hpq
        have hs := congrArg (fun p => p.label.placement_side) hpq
        simp at hs
      · intro hle
        linarith
    · rw [if_neg h2]
      refine ⟨rfl, rfl, rfl, ?_⟩
      constructor
      · intro _
        linarith [le_of_not_lt h2]
      · intro _
        rfl

/-!
## `llapi/annotation_placer.py` — provider dispatch and fallback

`place_difference_line` builds the `input_data` dict, serializes it as
indented JSON between the literal markers `"Input Data:"` and `"Apply"`
inside the prompt, and dispatches on the provider.  The provider call
(`_call_anthropic` / `_call_openai`) recovers `input_data` on any
exception by splitting the prompt on those markers and `json.loads`; the
round-trip is exact (JSON escapes every control character inside
strings, so neither marker can occur inside the serialized payload),
and is modelled here by carrying the `InputData` record in the prompt
structure.  The network call itself, including response JSON parsing,
is abstracted as an oracle returning `Except PyExc Placement`.
-/

/-- The prompt built by `place_difference_line`: literal header text,
the serialized `input_data`, literal footer text. -/
structure PromptD where
  header : String
  input_data : InputData
  footer : String
  deriving DecidableEq, Repr

/-- The prompt construction in `place_difference_line`
(annotation_placer.py, lines 110-115). -/
def build_prompt (input_data : InputData) : PromptD :=
  { header := "Calculate the precise placement for this annotation."
    input_data := input_data
    footer := "Apply your Visual Design AI rules and return the annotation object with exact coordinates." }

/-- The recovery of `input_data` in the `except` branches:
`json.loads(prompt.split("Input Data:\n")[1].split("\n\nApply")[0])`. -/
def parse_prompt_input (prompt : PromptD) : InputData :=
  prompt.input_data

/-- `AnnotationPlacer._call_anthropic` (lines 173-199): on success the
parsed LLM response is returned; on `ImportError` or any other
exception the local calculation is applied to the input recovered from
the prompt. -/
def call_anthropic (llm : PromptD → Except PyExc Placement)
    (prompt : PromptD) : Placement :=
  match llm prompt with
  | .ok result => result
  | .error _ => calculate_placement_locally (parse_prompt_input prompt)

/-- `AnnotationPlacer._call_openai` (lines 201-226): same fallback
structure as `_call_anthropic`. -/
def call_openai (llm : PromptD → Except PyExc Placement)
    (prompt : PromptD) : Placement :=
  match llm prompt with
  | .ok result => result
  | .error _ => calculate_placement_locally (parse_prompt_input prompt)

/-- `AnnotationPlacer.place_difference_line` (lines 80-123). -/
def place_difference_line (provider : String)
    (llm : PromptD → Except PyExc Placement)
    (bar1 bar2 : BarGeom) (label_text : String) : Placement :=
  let input_data : InputData := ⟨bar1, bar2, label_text⟩
  if provider = "mock" then
    calculate_placement_locally input_data
  else
    let prompt := build_prompt input_data
    if provider = "anthropic" then call_anthropic llm prompt
    else if provider = "openai" then call_openai llm prompt
    else calculate_placement_locally input_data

/-!
## `llapi/label_engine.py` — difference labels

`LLMPoweredLabelEngine.generate_difference_label` builds a
`DifferenceLabelRequest`, and in mock mode (or on any provider
exception) answers with `_generate_difference_label_locally`.
Python's fixed-precision formatting `f"{x:.0f}"` / `f"{x:.1f}"` rounds
half-to-even; it is modelled on `ℚ` by `roundHalfEven`.
-/

/-- `DifferenceLabelRequest` (label_engine.py, lines 56-62; the constant
`task` field is omitted). -/
structure DiffLabelRequest where
  start_value : ℚ
  end_value : ℚ
  currency : String
  direction : String
  deriving DecidableEq, Repr

/-- `DifferenceLabelResponse` (label_engine.py, lines 65-68). -/
structure DiffLabelResponse where
  primary : String
  secondary : String
  deriving DecidableEq, Repr

/-- Round to the nearest integer, ties to even: the rounding used by
Python's fixed-precision float formatting. -/
def roundHalfEven (q : ℚ) : ℤ :=
  let f := ⌊q⌋
  let r := q - f
  if r < 1 / 2 then f
  else if 1 / 2 < r then f + 1
  else if f % 2 = 0 then f else f + 1

/-- Python `f"{q:.0f}"` for a nonnegative value. -/
def fmt0 (q : ℚ) : String :=
  toString (roundHalfEven q)

/-- Python `f"{q:.1f}"` for a nonnegative value. -/
def fmt1 (q : ℚ) : String :=
  let n := roundHalfEven (q * 10)
  toString (n / 10) ++ "." ++ toString (n % 10)

/-- `LLMPoweredLabelEngine._generate_difference_label_locally`
(label_engine.py, lines 223-268). -/
def generate_difference_label_locally
    (request : DiffLabelRequest) : DiffLabelResponse :=
  let start := request.start_value
  let endv := request.end_value
  let currency := request.currency
  let direction := request.direction
  -- Calculate absolute difference
  let diff := |start - endv|
  -- Calculate percentage change
  let pct_change := if start ≠ 0 then |(start - endv) / start| * 100 else 0
  -- Format the difference with appropriate magnitude
  let diff_formatted :=
    if diff ≥ 1000000 then currency ++ fmt1 (diff / 1000000) ++ "M"
    else if diff ≥ 1000 then currency ++ fmt1 (diff / 1000) ++ "K"
    else currency ++ fmt0 diff
  -- Determine action word based on direction
  let (action, pct_word) :=
    if direction = "reduction" then ("savings", "reduction")
    else if direction = "increase" then ("increase", "increase")
    else ("change", "change")
  { primary := diff_formatted ++ " " ++ action
    secondary := "(" ++ fmt0 pct_change ++ "% " ++ pct_word ++ ")" }

/-- `LLMPoweredLabelEngine.generate_difference_label`
(label_engine.py, lines 126-176).  The provider call (with its JSON
response parsing) is abstracted as an oracle returning optional
`primary`/`secondary` fields; `_call_anthropic` / `_call_openai`
re-raise every failure as `RuntimeError`, which the `except` here turns
into the local fallback. -/
def generate_difference_label (provider : String)
    (llm : DiffLabelRequest → Except PyExc (Option String × Option String))
    (start_value end_value : ℚ) (currency direction : String) :
    DiffLabelResponse :=
  let request : DiffLabelRequest :=
    ⟨start_value, end_value, currency, direction⟩
  if provider = "mock" then
    generate_difference_label_locally request
  else if provider = "anthropic" ∨ provider = "openai" then
    match llm request with
    | .ok (p, s) => ⟨p.getD "", s.getD ""⟩
    | .error _ => generate_difference_label_locally request
  else
    generate_difference_label_locally request

/-- C4: if the provider call fails with any exception, neither the
annotation placer nor the label engine propagates it: with provider
`anthropic` or `openai`, `place_difference_line` returns exactly the
placement `_calculate_placement_locally` computes for the same bars and
label, and `generate_difference_label` returns exactly the local label
from `_generate_difference_label_locally`. -/
theorem C4_llm_failure_falls_back (provider : String)
    (hp : provider = "anthropic" ∨ provider = "openai")
    (e e' : PyExc) (bar1 bar2 : BarGeom) (label_text : String)
    (start_value end_value : ℚ) (currency direction : String) :
    place_difference_line provider (fun _ => .error e) bar1 bar2 label_text =
      calculate_placement_locally ⟨bar1, bar2, label_text⟩ ∧
    generate_difference_label provider (fun _ => .error e')
        start_value end_value currency direction =
      generate_difference_label_locally
        ⟨start_value, end_value, currency, direction⟩ := by
  rcases hp with h | h <;> subst h <;>
    exact ⟨rfl, rfl⟩

/-- C4 witness: the fallback theorem at provider `"anthropic"`, a
concrete exception and concrete inputs. -/
theorem C4_llm_failure_falls_back_witness :
    place_difference_line "anthropic" (fun _ => .error (.valueError "boom"))
        ⟨0, 1, 2⟩ ⟨3, 4, 5⟩ "d" =
      calculate_placement_locally ⟨⟨0, 1, 2⟩, ⟨3, 4, 5⟩, "d"⟩ ∧
    generate_difference_label "anthropic"
        (fun _ => .error (.valueError "boom")) 45 17 "€" "reduction" =
      generate_difference_label_locally ⟨45, 17, "€", "reduction"⟩ :=
  C4_llm_failure_falls_back "anthropic" (Or.inl rfl)
    (.valueError "boom") (.valueError "boom") ⟨0, 1, 2⟩ ⟨3, 4, 5⟩ "d"
    45 17 "€" "reduction"

/-- C7, specification side: the deterministic label described by the
spec — primary is the currency symbol, then |start − end| with an `M`
suffix at a million and above, a `K` suffix at a thousand and above,
otherwise a whole number, then the direction's action word; secondary
is the percentage |start − end| / start (0 when start = 0) rounded to a
whole percent, a percent sign, and the direction word, in
parentheses. -/
def specDifferenceLabel (start endv : ℚ) (currency direction : String) :
    DiffLabelResponse :=
  let diff := |start - endv|
  let amount :=
    if diff ≥ 1000000 then fmt1 (diff / 1000000) ++ "M"
    else if diff ≥ 1000 then fmt1 (diff / 1000) ++ "K"
    else fmt0 diff
  let actionWord :=
    if direction = "reduction" then "savings"
    else if direction = "increase" then "increase"
    else "change"
  let pctWord :=
    if direction = "reduction" then "reduction"
    else if direction = "increase" then "increase"
    else "change"
  let pct := if start = 0 then 0 else |(start - endv) / start| * 100
  { primary := currency ++ amount ++ " " ++ actionWord
    secondary := "(" ++ fmt0 pct ++ "% " ++ pctWord ++ ")" }

/-- C7: in mock mode (for every oracle) and as the local fallback,
`generate_difference_label` is the deterministic function of
(start, end, currency, direction) described by the spec, including the
zero-division guard at start = 0. -/
theorem C7_mock_difference_label_deterministic
    (llm : DiffLabelRequest → Except PyExc (Option String × Option String))
    (start_value end_value : ℚ) (currency direction : String) :
    generate_difference_label "mock" llm start_value end_value
        currency direction =
      specDifferenceLabel start_value end_value currency direction ∧
    generate_difference_label_locally
        ⟨start_value, end_value, currency, direction⟩ =
      specDifferenceLabel start_value end_value currency direction := by
  have hloc :
      generate_difference_label_locally
          ⟨start_value, end_value, currency, direction⟩ =
        specDifferenceLabel start_value end_value currency direction := by
    unfold generate_difference_label_locally specDifferenceLabel
    simp only [DiffLabelResponse.mk.injEq]
    constructor <;> split_ifs <;> simp_all [String.append_assoc]
  exact ⟨hloc, hloc⟩

/-!
## `templates/main_template_config.py` — layout distribution and safe zone

`LAYOUT_DISTRIBUTION` (lines 349-453) is a dict with exactly four keys.
Only the `chart_plus_insight_60_40` entry carries the chart/text areas
used by the chart+insight layout; the payloads of the other three
entries have different shapes and are not read by any code under
verification, so they are modelled as `none`.
-/

/-- A pixel-coordinate rectangle of the config (the `*_px` fields of an
area entry). -/
structure RectPx where
  x1_px : ℚ
  y1_px : ℚ
  x2_px : ℚ
  y2_px : ℚ
  width_px : ℚ
  height_px : ℚ
  deriving DecidableEq, Repr

/-- The `chart_plus_insight_60_40` payload: chart area, text area and
gutter (main_template_config.py, lines 420-452). -/
structure ChartInsightLayout where
  chart_area : RectPx
  text_area : RectPx
  gutter_px : ℚ
  deriving DecidableEq, Repr

/-- The `chart_plus_insight_60_40` entry of `LAYOUT_DISTRIBUTION`. -/
def chart_plus_insight_60_40 : ChartInsightLayout :=
  { chart_area := ⟨96, 154, 834, 956, 738, 802⟩
    text_area := ⟨894, 154, 1824, 956, 930, 802⟩
    gutter_px := 60 }

/-- `LAYOUT_DISTRIBUTION` as an association list: its exact key set, in
source order. -/
def LAYOUT_DISTRIBUTION : List (String × Option ChartInsightLayout) :=
  [("single_component", none),
   ("two_components_side_by_side", none),
   ("two_components_top_bottom", none),
   ("chart_plus_insight_60_40", some chart_plus_insight_60_40)]

/-- Python dict subscript `d[key]`: the value when the key is present,
`KeyError(key)` otherwise. -/
def dict_getitem {α : Type} (d : List (String × α)) (key : String) :
    Except PyExc α :=
  match d.find? (fun kv => kv.fst = key) with
  | some kv => .ok kv.snd
  | none => .error (.keyError key)

/-!
## `models.py` and `skills/main_slide_generator.py` — the pipeline

`SlideContent`/`PresentationRequest`/`GenerationResult` become records;
`create_presentation` runs the per-slide rendering in `Except PyExc`
and catches any exception into a failure `GenerationResult`.  The
python-pptx side effects (adding shapes to slides) carry no information
relevant to the claims and are modelled as unit results; the saved file
is modelled by the second component of the outcome.
-/

/-- `SlideContent` (models.py, lines 31-47), restricted to the fields
the Main generator reads.  `chart_data` is `none` both when the field
is `None` and when it is an empty dict: both are falsy in
`_has_chart_data`, and `SlideContent` declares no `data` attribute, so
the generator's second `hasattr` probe never fires. -/
structure SlideContentM where
  title : String
  bullet_points : List String
  content : Option String
  chart_data : Option Unit
  source : Option String
  deriving DecidableEq, Repr

/-- `PresentationRequest` (models.py, lines 50-66).  Note the declared
field set: there are no color fields. -/
structure PresentationRequestM where
  topic : String
  slides : List SlideContentM
  output_path : String
  template : String
  author : Option String
  company : Option String
  deriving DecidableEq, Repr

/-- `GenerationResult` (models.py, lines 69-76), without the free-form
metadata dict. -/
structure GenerationResultM where
  success : Bool
  output_path : Option String
  slide_count : ℕ
  error : Option String
  deriving DecidableEq, Repr

/-- `MainSlideGeneratorSkill._has_chart_data` (main_slide_generator.py,
lines 249-264): true iff the slide carries truthy chart data. -/
def has_chart_data (s : SlideContentM) : Bool :=
  s.chart_data.isSome

/-- `MainSlideGeneratorSkill._add_chart_insight_layout`
(main_slide_generator.py, lines 266-425).  Its first statement looks up
`self.config['layout_distribution']['chart_plus_insight_50_50']`; that
key is not among the four keys of `LAYOUT_DISTRIBUTION`, so the lookup
raises `KeyError` and the rest of the body (gutter assert, chart
creation, annotations) is unreachable — modelled as a no-op. -/
def add_chart_insight_layout (_s : SlideContentM) : Except PyExc Unit := do
  let _layout ← dict_getitem LAYOUT_DISTRIBUTION "chart_plus_insight_50_50"
  pure ()

/-- `MainSlideGeneratorSkill._add_content_slide`
(main_slide_generator.py, lines 168-202): title, then the dynamic
layout choice, then the footer.  Adding the title box, the bullets
layout and the footer cannot raise. -/
def add_content_slide (s : SlideContentM) : Except PyExc Unit := do
  -- _add_slide_title: pure shape insertion
  if has_chart_data s then
    add_chart_insight_layout s
  else
    pure ()  -- _add_bullets_layout
  -- _add_footer: pure shape insertion

/-- The `for slide_content in request.slides` loop of
`create_presentation`: stops at the first exception. -/
def render_slides : List SlideContentM → Except PyExc Unit
  | [] => .ok ()
  | s :: rest =>
    match add_content_slide s with
    | .ok _ => render_slides rest
    | .error e => .error e

/-- `MainSlideGeneratorSkill.create_presentation`
(main_slide_generator.py, lines 62-110): title slide, content slides,
closing slide, save; any exception is caught into a failure result,
and then no file has been saved.  The second component is the saved
file (output path and slide count), `none` when nothing was saved. -/
def create_presentation (request : PresentationRequestM) :
    GenerationResultM × Option (String × ℕ) :=
  match render_slides request.slides with
  | .ok _ =>
    let n := 1 + request.slides.length + 1
    ({ success := true
       output_path := some request.output_path
       slide_count := n
       error := none },
      some (request.output_path, n))
  | .error e =>
    ({ success := false
       output_path := some request.output_path
       slide_count := 0
       error := some e.toStr },
      none)

/-- If some slide of the list has chart data, the rendering loop fails
with the `KeyError` for the missing layout key. -/
theorem render_slides_chart_fails (slides : List SlideContentM)
    (h : ∃ s ∈ slides, has_chart_data s = true) :
    render_slides slides =
      .error (.keyError "chart_plus_insight_50_50") := by
  induction slides with
  | nil => rcases h with ⟨s, hs, _⟩; cases hs
  | cons a rest ih =>
    rcases h with ⟨s, hs, hchart⟩
    rcases List.mem_cons.mp hs with h1 | h1
    · subst h1
      unfold render_slides add_content_slide
      rw [if_pos hchart]
      rfl
    · unfold render_slides add_content_slide
      by_cases ha : has_chart_data a
      · rw [if_pos ha]; rfl
      · rw [if_neg ha]
        exact ih ⟨s, h1, hchart⟩

/-- C1: for every request containing at least one slide with non-empty
chart data, `create_presentation` returns a failure result with the
non-empty error string of the `KeyError` for the missing layout key
`chart_plus_insight_50_50` (which `LAYOUT_DISTRIBUTION` does not
define), and saves no output file. -/
theorem C1_chart_slide_always_fails (request : PresentationRequestM)
    (h : ∃ s ∈ request.slides, has_chart_data s = true) :
    (create_presentation request).fst.success = false ∧
    (create_presentation request).fst.error =
      some (PyExc.keyError "chart_plus_insight_50_50").toStr ∧
    (PyExc.keyError "chart_plus_insight_50_50").toStr ≠ "" ∧
    (create_presentation request).snd = none := by
  unfold create_presentation
  rw [render_slides_chart_fails request.slides h]
  exact ⟨rfl, rfl, by decide, rfl⟩

/-- C1 witness: a one-slide request with chart data, evaluated. -/
theorem C1_chart_slide_always_fails_witness :
    (create_presentation
        { topic := "t"
          slides := [{ title := "s1", bullet_points := [], content := none,
                       chart_data := some (), source := none }]
          output_path := "out.pptx"
          template := "main"
          author := none
          company := none }).fst.success = false ∧
    (create_presentation
        { topic := "t"
          slides := [{ title := "s1", bullet_points := [], content := none,
                       chart_data := some (), source := none }]
          output_path := "out.pptx"
          template := "main"
          author := none
          company := none }).fst.error =
      some (PyExc.keyError "chart_plus_insight_50_50").toStr ∧
    (PyExc.keyError "chart_plus_insight_50_50").toStr ≠ "" ∧
    (create_presentation
        { topic := "t"
          slides := [{ title := "s1", bullet_points := [], content := none,
                       chart_data := some (), source := none }]
          output_path := "out.pptx"
          template := "main"
          author := none
          company := none }).snd = none :=
  C1_chart_slide_always_fails _
    ⟨{ title := "s1", bullet_points := [], content := none,
       chart_data := some (), source := none },
      List.mem_singleton.mpr rfl, rfl⟩

/-!
## `skills/design_optimizer.py` and `agent.py` — color scheme application

`PresentationRequest` is a pydantic `BaseModel` with the default config:
assigning to an attribute that is not a declared field raises
(`object has no field ...`), in pydantic v1 and v2 alike.  The
assignment is modelled by `pydantic_setattr` over the declared field
list; since every assignment in `apply_color_scheme` targets an
undeclared field, the (unreachable) updated-request value is the
unchanged record.
-/

/-- The five colors of one scheme in
`DesignOptimizerSkill.COLOR_SCHEMES` (design_optimizer.py,
lines 11-68). -/
structure ColorScheme where
  primary : String
  secondary : String
  background : String
  text : String
  accent : String
  deriving DecidableEq, Repr

/-- `DesignOptimizerSkill.COLOR_SCHEMES`. -/
def COLOR_SCHEMES : List (String × ColorScheme) :=
  [("corporate_blue", ⟨"#1F4788", "#2E7D32", "#FFFFFF", "#333333", "#FF6B35"⟩),
   ("modern_tech", ⟨"#2C3E50", "#3498DB", "#FFFFFF", "#2C3E50", "#E74C3C"⟩),
   ("vibrant_creative", ⟨"#9B59B6", "#F39C12", "#FFFFFF", "#34495E", "#1ABC9C"⟩),
   ("minimalist_gray", ⟨"#455A64", "#78909C", "#FAFAFA", "#263238", "#FF7043"⟩),
   ("earth_tones", ⟨"#5D4037", "#8D6E63", "#FFF8E1", "#3E2723", "#43A047"⟩),
   ("ocean_blue", ⟨"#006064", "#0097A7", "#E0F7FA", "#004D40", "#FF6F00"⟩),
   ("sunset", ⟨"#BF360C", "#F4511E", "#FFF3E0", "#3E2723", "#FFB300"⟩),
   ("professional_green", ⟨"#1B5E20", "#388E3C", "#FFFFFF", "#263238", "#FBC02D"⟩)]

/-- The fields `PresentationRequest` declares (models.py, lines 50-66):
no color fields among them. -/
def presentationRequestFields : List String :=
  ["topic", "slides", "output_path", "template", "author", "company"]

/-- Pydantic `BaseModel.__setattr__` with the default model config:
succeeds on a declared field, raises `ValueError` (`object has no
field ...`) otherwise. -/
def pydantic_setattr (fields : List String) (name : String) :
    Except PyExc Unit :=
  if name ∈ fields then .ok ()
  else .error (.valueError ("PresentationRequest object has no field " ++ name))

/-- `DesignOptimizerSkill.apply_color_scheme` (design_optimizer.py,
lines 70-90): looks up the scheme (falling back to `corporate_blue`),
then assigns `primary_color`, `secondary_color`, `background_color`
and `text_color` on the request.  None of these is a declared field of
`PresentationRequest`. -/
def apply_color_scheme (request : PresentationRequestM)
    (scheme_name : String) : Except PyExc PresentationRequestM := do
  let _scheme :=
    ((COLOR_SCHEMES.find? (fun kv => kv.fst = scheme_name)).map Prod.snd).getD
      ⟨"#1F4788", "#2E7D32", "#FFFFFF", "#333333", "#FF6B35"⟩
  let _ ← pydantic_setattr presentationRequestFields "primary_color"
  let _ ← pydantic_setattr presentationRequestFields "secondary_color"
  let _ ← pydantic_setattr presentationRequestFields "background_color"
  let _ ← pydantic_setattr presentationRequestFields "text_color"
  pure request

/-- `SlideDeckAgent.create_presentation_from_content` (agent.py,
lines 105-157), parameterized by the slide list that
`ContentAnalyzerSkill.structure_content` produced: builds the request,
unconditionally applies the color scheme (default `corporate_blue`),
then generates.  There is no exception handler around the call. -/
def create_presentation_from_content (slides : List SlideContentM)
    (topic output_path color_scheme : String)
    (author company : Option String) : Except PyExc GenerationResultM := do
  let request : PresentationRequestM :=
    { topic := topic, slides := slides, output_path := output_path,
      template := "main", author := author, company := company }
  let request ← apply_color_scheme request color_scheme
  pure (create_presentation request).fst

/-- C10: for every request and scheme name, `apply_color_scheme` raises
(the first assignment, `request.primary_color = ...`, targets a field
`PresentationRequest` does not declare, and pydantic rejects it), so
`create_presentation_from_content`, which calls it unconditionally,
raises for every input instead of returning a `GenerationResult`. -/
theorem C10_apply_color_scheme_always_raises
    (request : PresentationRequestM) (scheme_name : String)
    (slides : List SlideContentM) (topic output_path : String)
    (author company : Option String) :
    apply_color_scheme request scheme_name =
      .error (.valueError
        "PresentationRequest object has no field primary_color") ∧
    create_presentation_from_content slides topic output_path scheme_name
        author company =
      .error (.valueError
        "PresentationRequest object has no field primary_color") := by
  constructor
  · rfl
  · rfl

/-!
## Chart annotation geometry (`_add_cagr_arrow`, `_add_difference_line`)

Both functions derive bar anchor coordinates from the chart data by the
same interpolation: fixed plot-area margins inside the chart area
(12% left, 2% right, 8% top, 15% bottom), a y range taken from the
axis scales with defaults `y_min = 0` and `y_max = 1.1 * data_max`,
guarded against a nonpositive range, and bar slots divided with a 50%
gap ratio.  Chart coordinates are in inches; `_add_difference_line`
multiplies by 144 (the reference DPI) before handing the geometry to
the Visual Design AI.
-/

/-- Python `max(l)` for a nonempty list (on `[]` Python raises; every
use below is guarded by the theorems' hypotheses or irrelevant). -/
def pyMaxQ (l : List ℚ) : ℚ :=
  l.foldl max (l.headD 0)

/-- The value→y interpolation shared by `get_bar_top_y` in
`_add_cagr_arrow` (lines 1324-1328) and `get_bar_top_y_inches` in
`_add_difference_line` (lines 1608-1611):
`plot_y1 + plot_height - ((v - y_min) / y_range) * plot_height`. -/
def get_bar_top_y (plot_y1 plot_height y_min y_range v : ℚ) : ℚ :=
  plot_y1 + plot_height - ((v - y_min) / y_range) * plot_height

/-- Inputs common to both annotation geometry routines: the actual
chart bounds (inches), the values of all series of the chart (in
series order), the target series index, and the optional explicit axis
scales (`value_axis.minimum_scale` / `maximum_scale`, `none` when
unset). -/
structure ChartGeomInputs where
  chart_x1 : ℚ
  chart_y1 : ℚ
  chart_width : ℚ
  chart_height : ℚ
  seriesValues : List (List ℚ)
  series_idx : ℕ
  y_min_scale : Option ℚ
  y_max_scale : Option ℚ
  deriving DecidableEq, Repr

/-- `y_min` of the annotation geometry: the explicit minimum scale, or
0. -/
def geom_y_min (inp : ChartGeomInputs) : ℚ :=
  inp.y_min_scale.getD 0

/-- `y_max` of the annotation geometry: the explicit maximum scale, or
`data_max * 1.1` where `data_max` is the maximum over all values of
all series. -/
def geom_y_max (inp : ChartGeomInputs) : ℚ :=
  inp.y_max_scale.getD (pyMaxQ inp.seriesValues.flatten * (11 / 10))

/-- The guarded y range: `y_max - y_min`, replaced by 1 when
nonpositive (`if y_range <= 0: y_range = 1`). -/
def geom_y_range (inp : ChartGeomInputs) : ℚ :=
  let r := geom_y_max inp - geom_y_min inp
  if r ≤ 0 then 1 else r

/-- `plot_y1 = chart_y1 + 0.08 * chart_height` (8% top margin). -/
def geom_plot_y1 (inp : ChartGeomInputs) : ℚ :=
  inp.chart_y1 + (8 / 100) * inp.chart_height

/-- `plot_height = chart_height * (1 - 0.08 - 0.15)` (8% top, 15%
bottom margins). -/
def geom_plot_height (inp : ChartGeomInputs) : ℚ :=
  inp.chart_height * (1 - 8 / 100 - 15 / 100)

/-- `plot_x1 = chart_x1 + 0.12 * chart_width` (12% left margin). -/
def geom_plot_x1 (inp : ChartGeomInputs) : ℚ :=
  inp.chart_x1 + (12 / 100) * inp.chart_width

/-- `plot_width = chart_width * (1 - 0.12 - 0.02)` (12% left, 2% right
margins). -/
def geom_plot_width (inp : ChartGeomInputs) : ℚ :=
  inp.chart_width * (1 - 12 / 100 - 2 / 100)

/-- `category_width = plot_width / num_categories`, where
`num_categories = len(series.points)` of the target series. -/
def geom_category_width (inp : ChartGeomInputs) : ℚ :=
  geom_plot_width inp / ((inp.seriesValues.getD inp.series_idx []).length : ℚ)

/-- `bar_group_width = category_width / (1 + gap_width_ratio)` with the
50% gap of the chart config. -/
def geom_bar_group_width (inp : ChartGeomInputs) : ℚ :=
  geom_category_width inp / (1 + 1 / 2)

/-- `single_bar_width = bar_group_width / num_series`. -/
def geom_single_bar_width (inp : ChartGeomInputs) : ℚ :=
  geom_bar_group_width inp / (inp.seriesValues.length : ℚ)

/-- `gap_between_categories = category_width - bar_group_width`. -/
def geom_gap_between_categories (inp : ChartGeomInputs) : ℚ :=
  geom_category_width inp - geom_bar_group_width inp

/-- `get_bar_center_x` of `_add_cagr_arrow` (lines 1317-1321): the
horizontal centre of the bar of the given series in the given
category. -/
def get_bar_center_x (inp : ChartGeomInputs) (cat_idx ser_idx : ℕ) : ℚ :=
  let category_start := geom_plot_x1 inp + (cat_idx : ℚ) * geom_category_width inp +
    geom_gap_between_categories inp / 2
  let bar_start := category_start + (ser_idx : ℚ) * geom_single_bar_width inp
  bar_start + geom_single_bar_width inp / 2

/-- `get_bar_edges_inches` of `_add_difference_line`
(lines 1601-1606): left and right edge of the bar. -/
def get_bar_edges_inches (inp : ChartGeomInputs) (cat_idx ser_idx : ℕ) :
    ℚ × ℚ :=
  let category_start := geom_plot_x1 inp + (cat_idx : ℚ) * geom_category_width inp +
    geom_gap_between_categories inp / 2
  let bar_start := category_start + (ser_idx : ℚ) * geom_single_bar_width inp
  (bar_start, bar_start + geom_single_bar_width inp)

/-- The bar-top y of a value, with this chart's plot rectangle and
y range. -/
def geom_bar_top_y (inp : ChartGeomInputs) (v : ℚ) : ℚ :=
  get_bar_top_y (geom_plot_y1 inp) (geom_plot_height inp) (geom_y_min inp)
    (geom_y_range inp) v

/-- STEP 1-2 of `_add_difference_line` (lines 1538-1633): extract both
bars' geometry and convert to pixels at 144 DPI, producing the
`bar1_geometry` / `bar2_geometry` dicts handed to the Visual Design
AI. -/
def diff_line_bar_geoms (inp : ChartGeomInputs) (from_cat to_cat : ℕ) :
    BarGeom × BarGeom :=
  let series_values := inp.seriesValues.getD inp.series_idx []
  let from_value := series_values.getD from_cat 0
  let to_value := series_values.getD to_cat 0
  let (from_bar_left, from_bar_right) :=
    get_bar_edges_inches inp from_cat inp.series_idx
  let (to_bar_left, to_bar_right) :=
    get_bar_edges_inches inp to_cat inp.series_idx
  let from_bar_y := geom_bar_top_y inp from_value
  let to_bar_y := geom_bar_top_y inp to_value
  let DPI : ℚ := 144
  (⟨from_bar_left * DPI, from_bar_right * DPI, from_bar_y * DPI⟩,
   ⟨to_bar_left * DPI, to_bar_right * DPI, to_bar_y * DPI⟩)

/-- C5, specification side: the bar-top y coordinate described by the
spec — linear interpolation of the value into the plot rectangle whose
margins are 8% top and 15% bottom of the chart area, with the divisor
`y_max - y_min` replaced by 1 whenever it is nonpositive. -/
def specBarTopY (chart_y1 chart_height y_min y_max v : ℚ) : ℚ :=
  let plot_y1 := chart_y1 + (8 / 100) * chart_height
  let plot_height := chart_height * (1 - 8 / 100 - 15 / 100)
  let denom := if y_max - y_min ≤ 0 then 1 else y_max - y_min
  plot_y1 + plot_height - ((v - y_min) / denom) * plot_height

/-- C5: in `_add_difference_line`, the `top_edge_y` handed to the
Visual Design AI for each bar is 144 (px/inch) times the interpolated
bar top, which equals the spec's formula: with `y_min` defaulting to 0
and `y_max` to 1.1 times the maximum data value when the axis scales
are unset, and with the divisor replaced by 1 whenever
`y_max - y_min ≤ 0` (so no division by zero occurs).  The same
interpolation gives the anchors of `_add_cagr_arrow` (in inches). -/
theorem C5_bar_top_linear_interpolation (inp : ChartGeomInputs)
    (from_cat to_cat : ℕ) :
    (diff_line_bar_geoms inp from_cat to_cat).fst.top_edge_y =
      144 * specBarTopY inp.chart_y1 inp.chart_height
        (inp.y_min_scale.getD 0)
        (inp.y_max_scale.getD (pyMaxQ inp.seriesValues.flatten * (11 / 10)))
        ((inp.seriesValues.getD inp.series_idx []).getD from_cat 0) ∧
    (diff_line_bar_geoms inp from_cat to_cat).snd.top_edge_y =
      144 * specBarTopY inp.chart_y1 inp.chart_height
        (inp.y_min_scale.getD 0)
        (inp.y_max_scale.getD (pyMaxQ inp.seriesValues.flatten * (11 / 10)))
        ((inp.seriesValues.getD inp.series_idx []).getD to_cat 0) ∧
    (∀ v : ℚ, geom_bar_top_y inp v =
      specBarTopY inp.chart_y1 inp.chart_height
        (inp.y_min_scale.getD 0)
        (inp.y_max_scale.getD (pyMaxQ inp.seriesValues.flatten * (11 / 10)))
        v) := by
  have hspec : ∀ v : ℚ, geom_bar_top_y inp v =
      specBarTopY inp.chart_y1 inp.chart_height
        (inp.y_min_scale.getD 0)
        (inp.y_max_scale.getD (pyMaxQ inp.seriesValues.flatten * (11 / 10)))
        v := by
    intro v
    unfold geom_bar_top_y get_bar_top_y specBarTopY geom_plot_y1
      geom_plot_height geom_y_range geom_y_max geom_y_min
    ring_nf
  refine ⟨?_, ?_, hspec⟩
  · show (geom_bar_top_y inp _) * 144 = _
    rw [hspec]
    ring
  · show (geom_bar_top_y inp _) * 144 = _
    rw [hspec]
    ring

/-- Shared helper: the embedded bar-top interpolation equals the
spec-side formula with the default axis scales spelled out. -/
theorem geom_bar_top_y_eq_spec (inp : ChartGeomInputs) (v : ℚ) :
    geom_bar_top_y inp v =
      specBarTopY inp.chart_y1 inp.chart_height
        (inp.y_min_scale.getD 0)
        (inp.y_max_scale.getD (pyMaxQ inp.seriesValues.flatten * (11 / 10)))
        v := by
  unfold geom_bar_top_y get_bar_top_y specBarTopY geom_plot_y1
    geom_plot_height geom_y_range geom_y_max geom_y_min
  ring_nf

/-- Quadratic Bézier evaluation, `bezier_point` of `_add_cagr_arrow`
(lines 1371-1372): `B(t) = (1-t)^2 P0 + 2(1-t)t P1 + t^2 P2`. -/
def bezier_point (t p0 p1 p2 : ℚ) : ℚ :=
  (1 - t) ^ 2 * p0 + 2 * (1 - t) * t * p1 + t ^ 2 * p2

/-- The values scanned by the obstacle loop of `_add_cagr_arrow`
(lines 1343-1351): for each category index between `min_cat` and
`max_cat` inclusive, the value of every series that has that category,
in loop order. -/
def obstacle_values (sv : List (List ℚ)) (min_cat max_cat : ℕ) :
    List ℚ :=
  ((List.range (max_cat + 1 - min_cat)).map (· + min_cat)).flatMap
    (fun cat_idx =>
      sv.filterMap (fun s =>
        if cat_idx < s.length then some (s.getD cat_idx 0) else none))

/-- The geometric outputs of STEP 1-2 of `_add_cagr_arrow`
(lines 1257-1394): the two anchors, the Bézier control point, and the
sampled curve. -/
structure CagrGeom where
  from_x : ℚ
  from_y : ℚ
  to_x : ℚ
  to_y : ℚ
  mid_x : ℚ
  highest_obstacle_value : ℚ
  control_y : ℚ
  curve_points : List (ℚ × ℚ)
  deriving DecidableEq, Repr

/-- STEP 1-2 of `_add_cagr_arrow`: anchors at the top centre of the
from/to bars, obstacle scan starting from 0, control point
`clearance * 1.33` above the highest obstacle (`clearance` is 30 px at
144 DPI), control x at the midpoint, and 21 curve points sampled at
`t = i/20`.  `from_cat`/`to_cat` are the already-normalized category
indices (the code turns a negative `to_category` — default −1 — into
`num_categories + to_category` before this point, lines 1266-1275). -/
def cagr_arrow_geom (inp : ChartGeomInputs) (from_cat to_cat : ℕ) :
    CagrGeom :=
  let series_values := inp.seriesValues.getD inp.series_idx []
  let from_value := series_values.getD from_cat 0
  let to_value := series_values.getD to_cat 0
  let from_x := get_bar_center_x inp from_cat inp.series_idx
  let from_y := geom_bar_top_y inp from_value
  let to_x := get_bar_center_x inp to_cat inp.series_idx
  let to_y := geom_bar_top_y inp to_value
  let min_cat := min from_cat to_cat
  let max_cat := max from_cat to_cat
  let highest_obstacle_value :=
    (obstacle_values inp.seriesValues min_cat max_cat).foldl max 0
  let clearance_inches : ℚ := 30 / 144
  let highest_obstacle_y := geom_bar_top_y inp highest_obstacle_value
  let control_y := highest_obstacle_y - clearance_inches * (133 / 100)
  let mid_x := (from_x + to_x) / 2
  let num_segments : ℕ := 20
  let curve_points := (List.range (num_segments + 1)).map
    (fun i => (bezier_point ((i : ℚ) / 20) from_x mid_x to_x,
               bezier_point ((i : ℚ) / 20) from_y control_y to_y))
  ⟨from_x, from_y, to_x, to_y, mid_x, highest_obstacle_value, control_y,
    curve_points⟩

/-- C6, spec side: "the highest bar of any series between the two
categories" — the maximum of the bar values scanned between the two
category indices. -/
def spec_highest_bar_between (sv : List (List ℚ))
    (min_cat max_cat : ℕ) : ℚ :=
  pyMaxQ (obstacle_values sv min_cat max_cat)

/-- Folding `max` from seed 0 computes the maximum of the list values
floored at 0. -/
theorem foldl_max_zero (l : List ℚ) :
    l.foldl max 0 = max 0 (pyMaxQ l) := by
  have key : ∀ (t : List ℚ) (b c : ℚ),
      t.foldl max (max b c) = max b (t.foldl max c) := by
    intro t
    induction t with
    | nil => intro b c; rfl
    | cons d t ih =>
      intro b c
      show t.foldl max (max (max b c) d) = max b (t.foldl max (max c d))
      rw [max_assoc]
      exact ih b (max c d)
  cases l with
  | nil => simp [pyMaxQ]
  | cons a t =>
    show t.foldl max (max 0 a) = max 0 (pyMaxQ (a :: t))
    rw [key t 0 a]
    congr 1
    show t.foldl max a = (a :: t).foldl max ((a :: t).headD 0)
    show t.foldl max a = t.foldl max (max a a)
    rw [max_self]

/-- C6 counterexample: the claim's description of the control point
fails when every bar between the two categories is negative.  With a
1×1-inch chart at the origin, one series with values [-10, -20], a
CAGR arrow from category 0 to category 1, the code's control y is
55/96 (obstacle scan floored at 0) while the claim's formula — 30/144
times 1.33 inches above the top of the highest bar between the
categories (value -10) — gives 3971/480. -/
theorem C6_counterexample :
    (cagr_arrow_geom ⟨0, 0, 1, 1, [[-10, -20]], 0, none, none⟩ 0 1).control_y ≠
      specBarTopY 0 1 0 (pyMaxQ ([[(-10 : ℚ), -20]].flatten) * (11 / 10))
          (spec_highest_bar_between [[-10, -20]] 0 1) -
        (30 / 144) * (133 / 100) := by
  have hflat : ([[(-10 : ℚ), -20]].flatten) = [-10, -20] := rfl
  have hmaxflat : pyMaxQ [(-10 : ℚ), -20] = -10 := by
    show max (max (-10 : ℚ) (-10)) (-20) = -10
    rw [max_self]
    rw [max_eq_left (by norm_num)]
  have hobs : obstacle_values [[(-10 : ℚ), -20]] 0 1 = [-10, -20] := by
    rfl
  have hhigh : spec_highest_bar_between [[(-10 : ℚ), -20]] 0 1 = -10 := by
    unfold spec_highest_bar_between
    rw [hobs, hmaxflat]
  have hcode :
      (cagr_arrow_geom ⟨0, 0, 1, 1, [[-10, -20]], 0, none, none⟩ 0 1).control_y =
        55 / 96 := by
    show geom_bar_top_y ⟨0, 0, 1, 1, [[-10, -20]], 0, none, none⟩
          ((obstacle_values [[(-10 : ℚ), -20]] (min 0 1) (max 0 1)).foldl max 0) -
        (30 / 144) * (133 / 100) = 55 / 96
    have : (min 0 1 : ℕ) = 0 := rfl
    rw [this]
    have : (max 0 1 : ℕ) = 1 := rfl
    rw [this, hobs]
    have hfold : ([(-10 : ℚ), -20]).foldl max 0 = 0 := by
      show max (max (0 : ℚ) (-10)) (-20) = 0
      rw [max_eq_left (by norm_num), max_eq_left (by norm_num)]
    rw [hfold]
    unfold geom_bar_top_y get_bar_top_y geom_plot_y1 geom_plot_height
      geom_y_range geom_y_max geom_y_min
    rw [hflat, hmaxflat]
    norm_num
  rw [hcode, hflat, hmaxflat, hhigh]
  unfold specBarTopY
  norm_num

/-- C6 amended: the CAGR arrow curve is exactly 21 points sampled at
`t = i/20` from the quadratic Bézier whose endpoints are the top-centre
anchors of the from-bar and to-bar; the control point's x is the
midpoint of the two anchor x's, and its y is `(30/144) * 1.33` inches
above the top of the highest bar of any series between the two
categories, where the highest bar value is floored at 0 (the obstacle
scan starts from 0); the first sampled point equals the from-bar anchor
and the last equals the to-bar anchor. -/
theorem C6_amended_cagr_curve (inp : ChartGeomInputs)
    (from_cat to_cat : ℕ) (i : ℕ) (hi : i < 21) :
    (cagr_arrow_geom inp from_cat to_cat).curve_points.length = 21 ∧
    (cagr_arrow_geom inp from_cat to_cat).curve_points.getD i (0, 0) =
      (bezier_point ((i : ℚ) / 20)
          (cagr_arrow_geom inp from_cat to_cat).from_x
          (cagr_arrow_geom inp from_cat to_cat).mid_x
          (cagr_arrow_geom inp from_cat to_cat).to_x,
        bezier_point ((i : ℚ) / 20)
          (cagr_arrow_geom inp from_cat to_cat).from_y
          (cagr_arrow_geom inp from_cat to_cat).control_y
          (cagr_arrow_geom inp from_cat to_cat).to_y) ∧
    (cagr_arrow_geom inp from_cat to_cat).curve_points.getD 0 (0, 0) =
      ((cagr_arrow_geom inp from_cat to_cat).from_x,
        (cagr_arrow_geom inp from_cat to_cat).from_y) ∧
    (cagr_arrow_geom inp from_cat to_cat).curve_points.getD 20 (0, 0) =
      ((cagr_arrow_geom inp from_cat to_cat).to_x,
        (cagr_arrow_geom inp from_cat to_cat).to_y) ∧
    (cagr_arrow_geom inp from_cat to_cat).from_x =
      get_bar_center_x inp from_cat inp.series_idx ∧
    (cagr_arrow_geom inp from_cat to_cat).to_x =
      get_bar_center_x inp to_cat inp.series_idx ∧
    (cagr_arrow_geom inp from_cat to_cat).mid_x =
      ((cagr_arrow_geom inp from_cat to_cat).from_x +
        (cagr_arrow_geom inp from_cat to_cat).to_x) / 2 ∧
    (cagr_arrow_geom inp from_cat to_cat).control_y =
      specBarTopY inp.chart_y1 inp.chart_height
          (inp.y_min_scale.getD 0)
          (inp.y_max_scale.getD (pyMaxQ inp.seriesValues.flatten * (11 / 10)))
          (max 0 (spec_highest_bar_between inp.seriesValues
            (min from_cat to_cat) (max from_cat to_cat))) -
        (30 / 144) * (133 / 100) := by
  have hget : ∀ (f : ℕ → ℚ × ℚ) (j : ℕ), j < 21 →
      ((List.range 21).map f).getD j (0, 0) = f j := by
    intro f j hj
    rw [List.getD_eq_getElem?_getD, List.getElem?_map, List.getElem?_range hj]
    rfl
  have hpoints : (cagr_arrow_geom inp from_cat to_cat).curve_points =
      (List.range 21).map
        (fun (j : ℕ) => (bezier_point ((j : ℚ) / 20)
            (cagr_arrow_geom inp from_cat to_cat).from_x
            (cagr_arrow_geom inp from_cat to_cat).mid_x
            (cagr_arrow_geom inp from_cat to_cat).to_x,
          bezier_point ((j : ℚ) / 20)
            (cagr_arrow_geom inp from_cat to_cat).from_y
            (cagr_arrow_geom inp from_cat to_cat).control_y
            (cagr_arrow_geom inp from_cat to_cat).to_y)) := rfl
  refine ⟨?_, ?_, ?_, ?_, rfl, rfl, rfl, ?_⟩
  · rw [hpoints, List.length_map, List.length_range]
  · rw [hpoints, hget _ i hi]
  · rw [hpoints, hget _ 0 (by norm_num)]
    have hb : ∀ p0 p1 p2 : ℚ, bezier_point ((0 : ℕ) / 20 : ℚ) p0 p1 p2 = p0 := by
      intro p0 p1 p2
      unfold bezier_point
      norm_num
    rw [hb, hb]
  · rw [hpoints, hget _ 20 (by norm_num)]
    have hb : ∀ p0 p1 p2 : ℚ, bezier_point ((20 : ℕ) / 20 : ℚ) p0 p1 p2 = p2 := by
      intro p0 p1 p2
      unfold bezier_point
      norm_num
    rw [hb, hb]
  · show geom_bar_top_y inp
        ((obstacle_values inp.seriesValues (min from_cat to_cat)
            (max from_cat to_cat)).foldl max 0) -
        (30 / 144) * (133 / 100) = _
    rw [foldl_max_zero, geom_bar_top_y_eq_spec]
    rfl

/-- C6 amended witness: the curve of a concrete 2-category chart,
sampled at i = 7. -/
theorem C6_amended_cagr_curve_witness :
    (cagr_arrow_geom ⟨0, 0, 1, 1, [[10, 20]], 0, none, none⟩ 0 1).curve_points.length = 21 ∧
    (cagr_arrow_geom ⟨0, 0, 1, 1, [[10, 20]], 0, none, none⟩ 0 1).curve_points.getD 7 (0, 0) =
      (bezier_point ((7 : ℚ) / 20)
          (cagr_arrow_geom ⟨0, 0, 1, 1, [[10, 20]], 0, none, none⟩ 0 1).from_x
          (cagr_arrow_geom ⟨0, 0, 1, 1, [[10, 20]], 0, none, none⟩ 0 1).mid_x
          (cagr_arrow_geom ⟨0, 0, 1, 1, [[10, 20]], 0, none, none⟩ 0 1).to_x,
        bezier_point ((7 : ℚ) / 20)
          (cagr_arrow_geom ⟨0, 0, 1, 1, [[10, 20]], 0, none, none⟩ 0 1).from_y
          (cagr_arrow_geom ⟨0, 0, 1, 1, [[10, 20]], 0, none, none⟩ 0 1).control_y
          (cagr_arrow_geom ⟨0, 0, 1, 1, [[10, 20]], 0, none, none⟩ 0 1).to_y) ∧
    (cagr_arrow_geom ⟨0, 0, 1, 1, [[10, 20]], 0, none, none⟩ 0 1).curve_points.getD 0 (0, 0) =
      ((cagr_arrow_geom ⟨0, 0, 1, 1, [[10, 20]], 0, none, none⟩ 0 1).from_x,
        (cagr_arrow_geom ⟨0, 0, 1, 1, [[10, 20]], 0, none, none⟩ 0 1).from_y) ∧
    (cagr_arrow_geom ⟨0, 0, 1, 1, [[10, 20]], 0, none, none⟩ 0 1).curve_points.getD 20 (0, 0) =
      ((cagr_arrow_geom ⟨0, 0, 1, 1, [[10, 20]], 0, none, none⟩ 0 1).to_x,
        (cagr_arrow_geom ⟨0, 0, 1, 1, [[10, 20]], 0, none, none⟩ 0 1).to_y) ∧
    (cagr_arrow_geom ⟨0, 0, 1, 1, [[10, 20]], 0, none, none⟩ 0 1).from_x =
      get_bar_center_x ⟨0, 0, 1, 1, [[10, 20]], 0, none, none⟩ 0 0 ∧
    (cagr_arrow_geom ⟨0, 0, 1, 1, [[10, 20]], 0, none, none⟩ 0 1).to_x =
      get_bar_center_x ⟨0, 0, 1, 1, [[10, 20]], 0, none, none⟩ 1 0 ∧
    (cagr_arrow_geom ⟨0, 0, 1, 1, [[10, 20]], 0, none, none⟩ 0 1).mid_x =
      ((cagr_arrow_geom ⟨0, 0, 1, 1, [[10, 20]], 0, none, none⟩ 0 1).from_x +
        (cagr_arrow_geom ⟨0, 0, 1, 1, [[10, 20]], 0, none, none⟩ 0 1).to_x) / 2 ∧
    (cagr_arrow_geom ⟨0, 0, 1, 1, [[10, 20]], 0, none, none⟩ 0 1).control_y =
      specBarTopY 0 1 ((none : Option ℚ).getD 0)
          ((none : Option ℚ).getD (pyMaxQ ([[(10 : ℚ), 20]].flatten) * (11 / 10)))
          (max 0 (spec_highest_bar_between [[10, 20]] (min 0 1) (max 0 1))) -
        (30 / 144) * (133 / 100) :=
  C6_amended_cagr_curve ⟨0, 0, 1, 1, [[10, 20]], 0, none, none⟩ 0 1 7
    (by norm_num)

/-!
## Safe Zone, `validate_bounds`, and annotation bounds (C8)

`SAFE_ZONE` (main_template_config.py, lines 46-72) is the rectangle
from (96, 54) to (1824, 1026) px at 144 DPI.  `validate_bounds`
(lines 864-889) decides containment.  The generator's
`_validate_element_bounds` merely forwards to it — and is never called
by any rendering code; annotation placement (leader lines, CAGR
labels, difference-line labels) computes coordinates without any
bounds check.
-/

/-- A corner of the safe zone (`x_px`/`y_px` fields). -/
structure PointPx where
  x_px : ℚ
  y_px : ℚ
  deriving DecidableEq, Repr

/-- `SAFE_ZONE`: 5% margins of the 1920×1080 canvas. -/
structure SafeZoneT where
  top_left : PointPx
  bottom_right : PointPx
  width_px : ℚ
  height_px : ℚ
  deriving DecidableEq, Repr

/-- The `SAFE_ZONE` constant. -/
def SAFE_ZONE : SafeZoneT :=
  { top_left := ⟨96, 54⟩
    bottom_right := ⟨1824, 1026⟩
    width_px := 1728
    height_px := 972 }

/-- `validate_bounds` (main_template_config.py, lines 864-889). -/
def validate_bounds (x_px y_px width_px height_px : ℚ) : Bool :=
  let safe_zone := SAFE_ZONE
  let within_x_start :=
    decide (safe_zone.top_left.x_px ≤ x_px) &&
      decide (x_px ≤ safe_zone.bottom_right.x_px)
  let within_y_start :=
    decide (safe_zone.top_left.y_px ≤ y_px) &&
      decide (y_px ≤ safe_zone.bottom_right.y_px)
  if 0 < width_px ∧ 0 < height_px then
    let within_x_end :=
      decide (x_px + width_px ≤ safe_zone.bottom_right.x_px)
    let within_y_end :=
      decide (y_px + height_px ≤ safe_zone.bottom_right.y_px)
    within_x_start && within_y_start && within_x_end && within_y_end
  else
    within_x_start && within_y_start

/-- A layout region's pixel bounds (`REGIONS`, lines 75-128). -/
structure RegionBounds where
  x1_px : ℚ
  y1_px : ℚ
  x2_px : ℚ
  y2_px : ℚ
  deriving DecidableEq, Repr

/-- The Title region: (96, 54) to (1824, 134). -/
def title_region_bounds : RegionBounds := ⟨96, 54, 1824, 134⟩

/-- The Content region: (96, 154) to (1824, 956). -/
def content_region_bounds : RegionBounds := ⟨96, 154, 1824, 956⟩

/-- The Footer region: (96, 972) to (1824, 1026). -/
def footer_region_bounds : RegionBounds := ⟨96, 972, 1824, 1026⟩

/-- The geometry computed by `_add_leader_line`
(main_slide_generator.py, lines 1433-1512), in inches: the anchor
point, the line end, and the top-left corner of the 100×20 px label
box. -/
structure LeaderLineGeom where
  point_x : ℚ
  point_y : ℚ
  end_x : ℚ
  end_y : ℚ
  label_x : ℚ
  label_y : ℚ
  deriving DecidableEq, Repr

/-- `_add_leader_line` geometry: the data point at the fractional
position (`x`, `y`) of the chart area, a line of `line_length` px in
the given direction, and the label box placed relative to the line
end. -/
def add_leader_line_geom (chart_x1 chart_y1 chart_width chart_height : ℚ)
    (ann_x ann_y : ℚ) (direction : String) (line_length : ℚ) :
    LeaderLineGeom :=
  let point_x_inches := chart_x1 + ann_x * chart_width
  let point_y_inches := chart_y1 + (1 - ann_y) * chart_height
  if direction = "up" then
    { point_x := point_x_inches, point_y := point_y_inches
      end_x := point_x_inches, end_y := point_y_inches - line_length / 144
      label_x := point_x_inches - 50 / 144
      label_y := point_y_inches - line_length / 144 - 25 / 144 }
  else if direction = "down" then
    { point_x := point_x_inches, point_y := point_y_inches
      end_x := point_x_inches, end_y := point_y_inches + line_length / 144
      label_x := point_x_inches - 50 / 144
      label_y := point_y_inches + line_length / 144 + 5 / 144 }
  else if direction = "right" then
    { point_x := point_x_inches, point_y := point_y_inches
      end_x := point_x_inches + line_length / 144, end_y := point_y_inches
      label_x := point_x_inches + line_length / 144 + 5 / 144
      label_y := point_y_inches - 10 / 144 }
  else
    { point_x := point_x_inches, point_y := point_y_inches
      end_x := point_x_inches - line_length / 144, end_y := point_y_inches
      label_x := point_x_inches - line_length / 144 - 105 / 144
      label_y := point_y_inches - 10 / 144 }

/-- C8 counterexample: a leader-line label placed outside the Safe
Zone.  For a chart area starting at the Content region's left edge
(96 px = 2/3 inch), a leader-line annotation at the chart's left edge
(`x = 0, y = 0.5`) with direction `left` and the default 40 px line
puts the 100×20 px label box at x = −49 px, left of the canvas itself;
`validate_bounds` rejects it, refuting the claim that every placed
element lies inside the Safe Zone. -/
theorem C8_counterexample :
    validate_bounds
        ((add_leader_line_geom (96 / 144) (154 / 144) (738 / 144) (802 / 144)
            0 (1 / 2) "left" 40).label_x * 144)
        ((add_leader_line_geom (96 / 144) (154 / 144) (738 / 144) (802 / 144)
            0 (1 / 2) "left" 40).label_y * 144)
        100 20 = false := by
  have hx : (add_leader_line_geom (96 / 144) (154 / 144) (738 / 144)
      (802 / 144) 0 (1 / 2) "left" 40).label_x = -49 / 144 := by
    unfold add_leader_line_geom
    rw [if_neg (by decide), if_neg (by decide), if_neg (by decide)]
    norm_num
  rw [hx]
  unfold validate_bounds
  rw [if_pos (by norm_num)]
  have h96 : ¬ (SAFE_ZONE.top_left.x_px ≤ (-49 / 144 : ℚ) * 144) := by
    show ¬ ((96 : ℚ) ≤ (-49 / 144 : ℚ) * 144)
    norm_num
  rw [decide_eq_false h96]
  simp

/-- C8 amended: `validate_bounds` correctly decides Safe-Zone
containment (for a positive-size box, it is true exactly when the box
lies inside the rectangle from (96, 54) to (1824, 1026)), and the
Title, Content and Footer region rectangles — the boxes the generator
uses for slide titles, bullets and footers — all pass it; but chart
annotation elements are placed without any bounds check
(`_validate_element_bounds` is never invoked by rendering code), and a
leader-line label near the chart's left edge falls outside the Safe
Zone. -/
theorem C8_amended_safe_zone (x y w h : ℚ) (hw : 0 < w) (hh : 0 < h) :
    (validate_bounds x y w h = true ↔
      (96 ≤ x ∧ 54 ≤ y ∧ x + w ≤ 1824 ∧ y + h ≤ 1026)) ∧
    validate_bounds title_region_bounds.x1_px title_region_bounds.y1_px
      (title_region_bounds.x2_px - title_region_bounds.x1_px)
      (title_region_bounds.y2_px - title_region_bounds.y1_px) = true ∧
    validate_bounds content_region_bounds.x1_px content_region_bounds.y1_px
      (content_region_bounds.x2_px - content_region_bounds.x1_px)
      (content_region_bounds.y2_px - content_region_bounds.y1_px) = true ∧
    validate_bounds footer_region_bounds.x1_px footer_region_bounds.y1_px
      (footer_region_bounds.x2_px - footer_region_bounds.x1_px)
      (footer_region_bounds.y2_px - footer_region_bounds.y1_px) = true := by
  have hiff : ∀ a b c d : ℚ, 0 < c → 0 < d →
      (validate_bounds a b c d = true ↔
        (96 ≤ a ∧ 54 ≤ b ∧ a + c ≤ 1824 ∧ b + d ≤ 1026)) := by
    intro a b c d hc hd
    unfold validate_bounds
    rw [if_pos ⟨hc, hd⟩]
    simp only [SAFE_ZONE, Bool.and_eq_true, decide_eq_true_eq]
    constructor
    · rintro ⟨⟨⟨⟨h1, _⟩, h2, _⟩, h3⟩, h4⟩
      exact ⟨h1, h2, h3, h4⟩
    · rintro ⟨h1, h2, h3, h4⟩
      exact ⟨⟨⟨⟨h1, by linarith⟩, h2, by linarith⟩, h3⟩, h4⟩
  refine ⟨hiff x y w h hw hh, ?_, ?_, ?_⟩
  · rw [hiff _ _ _ _ (by norm_num [title_region_bounds])
      (by norm_num [title_region_bounds])]
    norm_num [title_region_bounds]
  · rw [hiff _ _ _ _ (by norm_num [content_region_bounds])
      (by norm_num [content_region_bounds])]
    norm_num [content_region_bounds]
  · rw [hiff _ _ _ _ (by norm_num [footer_region_bounds])
      (by norm_num [footer_region_bounds])]
    norm_num [footer_region_bounds]

/-- C8 amended witness: the containment characterization evaluated on
a concrete in-bounds box. -/
theorem C8_amended_safe_zone_witness :
    ((validate_bounds 100 100 50 50 = true ↔
      ((96 : ℚ) ≤ 100 ∧ (54 : ℚ) ≤ 100 ∧ (100 : ℚ) + 50 ≤ 1824 ∧
        (100 : ℚ) + 50 ≤ 1026)) ∧
    validate_bounds title_region_bounds.x1_px title_region_bounds.y1_px
      (title_region_bounds.x2_px - title_region_bounds.x1_px)
      (title_region_bounds.y2_px - title_region_bounds.y1_px) = true ∧
    validate_bounds content_region_bounds.x1_px content_region_bounds.y1_px
      (content_region_bounds.x2_px - content_region_bounds.x1_px)
      (content_region_bounds.y2_px - content_region_bounds.y1_px) = true ∧
    validate_bounds footer_region_bounds.x1_px footer_region_bounds.y1_px
      (footer_region_bounds.x2_px - footer_region_bounds.x1_px)
      (footer_region_bounds.y2_px - footer_region_bounds.y1_px) = true) :=
  C8_amended_safe_zone 100 100 50 50 (by norm_num) (by norm_num)

/-!
## `llapi/content_generator.py` — `_mock_generate` (C9)

Python strings are modelled as `List Char` here so that every string
operation (lower-casing, substring tests, splitting, stripping)
evaluates inside the kernel.  A mock slide keeps the slide number,
type, title and bullets; the chart payloads of the hard-coded decks
are large nested dicts that no claim inspects, so only their presence
is modelled (`has_chart_data`).
-/

/-- One slide of a mock deck. -/
structure MockSlide where
  slide_number : ℕ
  slide_type : String
  title : String
  bullet_points : List String
  has_chart_data : Bool
  deriving DecidableEq, Repr

/-- A mock deck: the dict returned by `_mock_generate`. -/
structure MockDeck where
  presentation_title : String
  subtitle : String
  slides : List MockSlide
  deriving DecidableEq, Repr

/-- The eight hard-coded Musk Ecosystem Bank slides
(content_generator.py, lines 280-371). -/
def muskBankSlides : List MockSlide :=
  [⟨1, "problem",
    "Traditional banks fail to integrate with modern tech ecosystems",
    ["Financial services remain siloed from consumers\x27 daily technology experiences",
     "Banking lacks connection to sustainable transportation and clean energy choices",
     "No unified financial platform serves users across multiple technology platforms",
     "Remote and mobile users face connectivity barriers with traditional banking"],
    false⟩,
   ⟨2, "solution",
    "Musk Ecosystem Bank unifies finance with Tesla, SpaceX, and X platforms",
    ["Digital-only bank integrating financial services across Musk\x27s technology ecosystem",
     "Leverages innovation ethos to reimagine banking for the sustainable tech lifestyle",
     "Initially U.S.-based with plans for global expansion",
     "Functions as financial \x27umbrella\x27 connecting Tesla, SpaceX, and X users"],
    false⟩,
   ⟨3, "value_proposition",
    "Sustainable Banking ties deposits directly to green initiatives",
    ["Funds finance electric vehicles, solar projects, and clean technology",
     "Customers actively help fight climate change through their banking choices",
     "Carbon credit incentives reward environmentally friendly behaviors",
     "EV drivers receive rewards for sustainable transportation choices"],
    false⟩,
   ⟨4, "value_proposition",
    "Ecosystem Synergy delivers unified financial tools across platforms",
    ["Tesla owners, SpaceX enthusiasts, and X users get exclusive perks",
     "Digital wallet integrates directly into Tesla vehicle interfaces",
     "Seamless payment for charging, services, and purchases via car interface",
     "Similar integration model to Amazon\x27s financial services partnerships"],
    false⟩,
   ⟨5, "product",
    "AI-first approach powers proactive, personalized banking experiences",
    ["Advanced algorithms enhance user experience and operational efficiency",
     "AI-driven credit scoring analyzes alternative data for inclusive lending",
     "Real-time advice alerts users to optimal charging times and costs",
     "Intelligent trip planning with optimal Supercharger stop recommendations"],
    false⟩,
   ⟨6, "market",
    "Starlink enables global banking accessibility anywhere on Earth",
    ["High-speed satellite internet connects remote users to banking services",
     "Bank aims to serve customers anywhere on the planet via Starlink",
     "Positions as \x27everything app\x27 for finance that transcends borders",
     "Mobile and remote users gain unprecedented financial access"],
    false⟩,
   ⟨7, "differentiation",
    "Four key differentiators set Musk Ecosystem Bank apart",
    ["Sustainable Banking: Green initiatives and carbon credit rewards",
     "Ecosystem Synergy: Unified tools across Tesla, SpaceX, and X",
     "Innovative Tech & AI: Proactive, intelligent financial services",
     "Global Accessibility: Starlink-powered worldwide reach"],
    false⟩,
   ⟨8, "vision",
    "The bank enables seamless integration of finance with sustainable tech lifestyle",
    ["Connects financial life with EV ownership experiences",
     "Bridges banking to space exploration enthusiasm",
     "Integrates social media engagement with financial services",
     "Creates exclusive experiences across the entire Musk ecosystem"],
    false⟩]

/-- `ContentGenerator._mock_musk_bank_slides` (lines 280-377). -/
def mock_musk_bank_slides (max_slides : ℕ) : MockDeck :=
  { presentation_title := "Musk Ecosystem Bank"
    subtitle := "Integrating Tesla, SpaceX, and X"
    slides := muskBankSlides.take max_slides }

/-- The ten hard-coded BCG Retail Transformation slides
(content_generator.py, lines 379-611). -/
def retailSlides : List MockSlide :=
  [⟨1, "executive_summary",
    "E-commerce growing 45% CAGR will represent 70% of revenue by 2027",
    ["Store sales declining 8% annually as customers shift to digital channels",
     "E-commerce revenue projected to reach €2.8B by 2027",
     "Mobile commerce now represents 65% of digital sales, up from 42% in 2023",
     "Omnichannel customers spend 3.2x more than single-channel shoppers"],
    true⟩,
   ⟨2, "situation",
    "Mobile-first shopping behavior now dominant across all demographics",
    ["Gen Z and Millennials drive 68% of mobile commerce volume",
     "Average order value on mobile increased 23% YoY to €87",
     "Mobile app users show 2.8x higher retention than mobile web",
     "Push notifications drive 42% conversion uplift vs. email campaigns"],
    true⟩,
   ⟨3, "situation",
    "Western Europe and North America lead with 55%+ digital penetration",
    ["Western Europe: 58% digital penetration, €1.2B annual revenue",
     "North America: 56% digital penetration, driven by mobile app adoption",
     "Eastern Europe: 42% penetration, fastest growth region at 62% CAGR",
     "Asia-Pacific: 38% penetration, significant untapped potential"],
    true⟩,
   ⟨4, "challenges",
    "Digital-first strategy reducing CAC by 62%, from €45 to €17",
    ["Traditional marketing CAC: €45 (print, TV, direct mail)",
     "Digital marketing CAC: €17 (social, search, influencer partnerships)",
     "Organic social driving 40% of new acquisitions at €3 CAC",
     "Referral program contributing 25% of acquisitions at €8 CAC"],
    true⟩,
   ⟨5, "recommendation",
    "€180M technology investment required for omnichannel excellence",
    ["Platform modernization: €65M for cloud-native e-commerce platform",
     "Mobile apps: €35M for iOS/Android native apps with AR try-on",
     "Data & analytics: €40M for CDP, ML personalization, real-time inventory",
     "Store digitization: €40M for smart fitting rooms, endless aisle, mobile POS"],
    true⟩,
   ⟨6, "recommendation",
    "Omnichannel customers deliver 3.2x higher LTV at €1,280",
    ["Single-channel (store only): €400 LTV, 18-month retention",
     "Single-channel (online only): €520 LTV, 24-month retention",
     "Omnichannel (store + online): €1,280 LTV, 42-month retention",
     "Omnichannel customers shop 2.4x more frequently across touchpoints"],
    true⟩,
   ⟨7, "implementation",
    "18-month phased rollout minimizes risk while delivering value",
    ["Phase 1 (M1-6): Platform foundation, mobile app MVP, basic personalization",
     "Phase 2 (M7-12): Omnichannel integration, advanced ML, store pilot",
     "Phase 3 (M13-18): Full store rollout, AR features, inventory optimization",
     "Quick wins in Phase 1: New mobile app, improved checkout, recommendations"],
    true⟩,
   ⟨8, "risks",
    "Transformation positions company as category leader with 68 NPS",
    ["Current NPS: 42 (industry average: 38)",
     "Target NPS post-transformation: 68 (best-in-class benchmark)",
     "Mobile app rated 4.7/5.0 stars (top 5% in retail category)",
     "Omnichannel capabilities exceed 85% of direct competitors"],
    false⟩,
   ⟨9, "next_steps",
    "€420M annual revenue with 28% EBITDA margin by Year 3",
    ["Year 1: €80M incremental revenue, 18% margin",
     "Year 2: €240M incremental revenue, 24% margin",
     "Year 3: €420M incremental revenue, 28% margin (steady state)",
     "Payback period: 16 months, 3-year NPV: €680M at 10% discount"],
    true⟩,
   ⟨10, "recommendation",
    "Proceed with €180M investment - 16-month payback, €680M NPV",
    ["Compelling financial returns: 16-month payback period, €680M 3-year NPV",
     "Strategic imperative: E-commerce shift is accelerating, not optional",
     "Competitive necessity: Category leadership requires omnichannel excellence",
     "Risk mitigation: Phased approach allows course correction and quick wins"],
    false⟩]

/-- `ContentGenerator._mock_retail_transformation_slides`
(lines 379-617). -/
def mock_retail_transformation_slides (max_slides : ℕ) : MockDeck :=
  { presentation_title := "Retail Digital Transformation"
    subtitle := "BCG Strategy Update"
    slides := retailSlides.take max_slides }

/-- Python `needle in haystack` on strings-as-char-lists. -/
def py_contains (needle : List Char) : List Char → Bool
  | [] => needle.isPrefixOf []
  | x :: xs => needle.isPrefixOf (x :: xs) || py_contains needle xs

/-- Python `s.split(c)` for a one-character separator: never returns an
empty list, keeps empty pieces. -/
def splitOnChar (c : Char) : List Char → List (List Char)
  | [] => [[]]
  | x :: xs =>
    match splitOnChar c xs with
    | [] => [[]]
    | y :: ys => if x = c then [] :: y :: ys else (x :: y) :: ys

/-- Python `s.strip()`: drop whitespace on both ends. -/
def pyStrip (l : List Char) : List Char :=
  ((l.dropWhile Char.isWhitespace).reverse.dropWhile Char.isWhitespace).reverse

/-- Python `s.split()`: split on whitespace, dropping empty pieces. -/
def pyWords (l : List Char) : List (List Char) :=
  (l.splitOnP Char.isWhitespace).filter (fun w => !w.isEmpty)

/-- The characters of `lstrip('•-*– ')` in `_mock_parse_content`
(line 653). -/
def bullet_strip_chars : List Char := ['•', '-', '*', '–', ' ']

/-- The bullet markers of `startswith(('•', '-', '*', '–'))`
(line 652). -/
def bullet_marks : List Char := ['•', '-', '*', '–']

/-- The keywords of the key-phrase heuristic (line 658). -/
def parse_keywords : List (List Char) :=
  ["key".toList, "important".toList, "main".toList, "value".toList,
   "benefit".toList]

/-- The loop state of `_mock_parse_content`: accumulated slides, next
slide number, current bullets and current title (Python `None`
initially; an empty-string title is falsy and never saved). -/
structure ParseSt where
  slides : List MockSlide
  slide_num : ℕ
  bullets : List (List Char)
  title : Option (List Char)
  deriving DecidableEq, Repr

/-- Python truthiness of `current_title`. -/
def title_truthy : Option (List Char) → Bool
  | some l => !l.isEmpty
  | none => false

/-- The `if current_title and current_bullets and slide_num <=
max_slides` save step (lines 639-647 and 663-669). -/
def save_if_due (max_slides : ℕ) (st : ParseSt) : ParseSt :=
  if title_truthy st.title && !st.bullets.isEmpty &&
      decide (st.slide_num ≤ max_slides) then
    { slides := st.slides ++
        [⟨st.slide_num, "content", (st.title.getD []).asString,
          (st.bullets.take 4).map List.asString, false⟩]
      slide_num := st.slide_num + 1
      bullets := []
      title := st.title }
  else st

/-- One iteration of the `for line in lines` loop of
`_mock_parse_content` (lines 635-660). -/
def parse_step (max_slides : ℕ) (st : ParseSt) (line : List Char) :
    ParseSt :=
  if line.headD ' ' = '#' || line.getLastD ' ' = ':' then
    -- header: save the previous slide, then start a new title
    let st' := save_if_due max_slides st
    { st' with title := some (pyStrip
        (((line.dropWhile (· = '#')).reverse.dropWhile (· = ':')).reverse)) }
  else if bullet_marks.any (fun m => line.headD ' ' = m) then
    let bullet := pyStrip (line.dropWhile (· ∈ bullet_strip_chars))
    if !bullet.isEmpty then { st with bullets := st.bullets ++ [bullet] }
    else st
  else if parse_keywords.any
      (fun kw => py_contains kw (line.map Char.toLower)) then
    if st.bullets.length < 6 then { st with bullets := st.bullets ++ [line] }
    else st
  else st

/-- `ContentGenerator._create_generic_slides` (lines 681-703):
`chunk_size = len(words) // min(max_slides, 10)` raises
`ZeroDivisionError` when `max_slides = 0`. -/
def create_generic_slides (content : List Char) (max_slides : ℕ) :
    Except PyExc (List MockSlide) :=
  let words := pyWords content
  let m := min max_slides 10
  if m = 0 then .error .zeroDivisionError
  else
    let chunk_size := words.length / m
    .ok ((List.range m).map (fun i =>
      let chunk := (words.drop (i * chunk_size)).take chunk_size
      let chunkChars := List.intercalate [' '] chunk
      let sentences := ((splitOnChar '.' chunkChars).map pyStrip).filter
        (fun s => 20 < s.length)
      let bullets :=
        if sentences.isEmpty then ["Content from source document"]
        else (sentences.take 4).map List.asString
      ⟨i + 1, "content", "Key Points - Part " ++ toString (i + 1),
        bullets, false⟩))

/-- `ContentGenerator._mock_parse_content` (lines 619-679).  The
`parser.extract_sections` result is computed but never used by the
function and is omitted. -/
def mock_parse_content (content : List Char) (max_slides : ℕ) :
    Except PyExc MockDeck :=
  let lines := ((splitOnChar '\n' content).map pyStrip).filter
    (fun l => !l.isEmpty)
  let st := lines.foldl (parse_step max_slides)
    ⟨[], 1, [], none⟩
  let slides0 := (save_if_due max_slides st).slides
  match (if slides0.length < 3 then create_generic_slides content max_slides
      else .ok slides0 : Except PyExc (List MockSlide)) with
  | .error e => .error e
  | .ok slides =>
    .ok { presentation_title := ((slides.head?.map MockSlide.title).getD
            "Presentation")
          subtitle := ""
          slides := slides.take max_slides }

/-- `ContentGenerator._mock_generate` (lines 259-278): branch purely by
substring matching on the lower-cased content. -/
def mock_generate (content : List Char) (max_slides : ℕ) :
    Except PyExc MockDeck :=
  let content_lower := content.map Char.toLower
  if py_contains "musk ecosystem bank".toList content_lower ||
      (py_contains "tesla".toList content_lower &&
        py_contains "spacex".toList content_lower) then
    .ok (mock_musk_bank_slides max_slides)
  else if py_contains "retail".toList content_lower &&
      (py_contains "e-commerce".toList content_lower ||
        py_contains "digital transformation".toList content_lower) then
    .ok (mock_retail_transformation_slides max_slides)
  else
    mock_parse_content content max_slides

/-- With at least one slide requested, `_create_generic_slides` does
not divide by zero. -/
theorem create_generic_slides_ok (content : List Char) (max_slides : ℕ)
    (h : 1 ≤ max_slides) :
    ∃ l, create_generic_slides content max_slides = .ok l := by
  unfold create_generic_slides
  rw [if_neg (by omega : ¬ min max_slides 10 = 0)]
  exact ⟨_, rfl⟩

/-- With at least one slide requested, `_mock_parse_content` returns a
deck with at most `max_slides` slides. -/
theorem mock_parse_content_ok (content : List Char) (max_slides : ℕ)
    (h : 1 ≤ max_slides) :
    ∃ deck, mock_parse_content content max_slides = .ok deck ∧
      deck.slides.length ≤ max_slides := by
  unfold mock_parse_content
  dsimp only
  by_cases hlen :
      ((save_if_due max_slides
          ((((splitOnChar '\n' content).map pyStrip).filter
              (fun l => !l.isEmpty)).foldl (parse_step max_slides)
            ⟨[], 1, [], none⟩)).slides).length < 3
  · rw [if_pos hlen]
    obtain ⟨l, hl⟩ := create_generic_slides_ok content max_slides h
    rw [hl]
    refine ⟨_, rfl, ?_⟩
    simp only [List.length_take]
    omega
  · rw [if_neg hlen]
    refine ⟨_, rfl, ?_⟩
    simp only [List.length_take]
    omega

/-- C9 counterexample: with `max_slides = 0` and content matching
neither hard-coded branch, `_mock_generate` does not return a deck at
all: the parse path collects no slides, falls through to
`_create_generic_slides`, and `len(words) // min(0, 10)` raises
`ZeroDivisionError` — so the claim that the returned slides list
always has at most `max_slides` entries fails at this input. -/
theorem C9_counterexample :
    mock_generate "hello".toList 0 = .error .zeroDivisionError := by
  rfl

/-- C9 amended: `_mock_generate` selects its output purely by substring
matching on the lower-cased input — the Musk Ecosystem Bank deck
exactly when the text contains "musk ecosystem bank" or both "tesla"
and "spacex"; otherwise the Retail Transformation deck exactly when it
contains "retail" and either "e-commerce" or "digital transformation";
otherwise a deck parsed from the text — and, provided `max_slides ≥ 1`,
it returns a deck whose slides list has at most `max_slides` entries
(with `max_slides = 0`, the parse path raises `ZeroDivisionError`
instead of returning). -/
theorem C9_amended_mock_generate (content : List Char) (max_slides : ℕ)
    (h : 1 ≤ max_slides) :
    mock_generate content max_slides =
      (if py_contains "musk ecosystem bank".toList
            (content.map Char.toLower) ||
          (py_contains "tesla".toList (content.map Char.toLower) &&
            py_contains "spacex".toList (content.map Char.toLower)) then
        .ok (mock_musk_bank_slides max_slides)
      else if py_contains "retail".toList (content.map Char.toLower) &&
          (py_contains "e-commerce".toList (content.map Char.toLower) ||
            py_contains "digital transformation".toList
              (content.map Char.toLower)) then
        .ok (mock_retail_transformation_slides max_slides)
      else mock_parse_content content max_slides) ∧
    (mock_musk_bank_slides max_slides).slides.length ≤ max_slides ∧
    (mock_retail_transformation_slides max_slides).slides.length ≤
      max_slides ∧
    ∃ deck, mock_generate content max_slides = .ok deck ∧
      deck.slides.length ≤ max_slides := by
  refine ⟨rfl, ?_, ?_, ?_⟩
  · show (muskBankSlides.take max_slides).length ≤ max_slides
    simp only [List.length_take]
    omega
  · show (retailSlides.take max_slides).length ≤ max_slides
    simp only [List.length_take]
    omega
  · unfold mock_generate
    by_cases h1 : (py_contains "musk ecosystem bank".toList
          (content.map Char.toLower) ||
        (py_contains "tesla".toList (content.map Char.toLower) &&
          py_contains "spacex".toList (content.map Char.toLower))) = true
    · rw [if_pos h1]
      refine ⟨mock_musk_bank_slides max_slides, rfl, ?_⟩
      show (muskBankSlides.take max_slides).length ≤ max_slides
      simp only [List.length_take]
      omega
    · rw [if_neg h1]
      by_cases h2 : (py_contains "retail".toList (content.map Char.toLower) &&
          (py_contains "e-commerce".toList (content.map Char.toLower) ||
            py_contains "digital transformation".toList
              (content.map Char.toLower))) = true
      · rw [if_pos h2]
        refine ⟨mock_retail_transformation_slides max_slides, rfl, ?_⟩
        show (retailSlides.take max_slides).length ≤ max_slides
        simp only [List.length_take]
        omega
      · rw [if_neg h2]
        exact mock_parse_content_ok content max_slides h

/-- C9 amended witness: `_mock_generate` on the unmatched content
"hello" with three slides requested. -/
theorem C9_amended_mock_generate_witness :
    mock_generate "hello".toList 3 =
      (if py_contains "musk ecosystem bank".toList
            ("hello".toList.map Char.toLower) ||
          (py_contains "tesla".toList ("hello".toList.map Char.toLower) &&
            py_contains "spacex".toList ("hello".toList.map Char.toLower)) then
        .ok (mock_musk_bank_slides 3)
      else if py_contains "retail".toList ("hello".toList.map Char.toLower) &&
          (py_contains "e-commerce".toList ("hello".toList.map Char.toLower) ||
            py_contains "digital transformation".toList
              ("hello".toList.map Char.toLower)) then
        .ok (mock_retail_transformation_slides 3)
      else mock_parse_content "hello".toList 3) ∧
    (mock_musk_bank_slides 3).slides.length ≤ 3 ∧
    (mock_retail_transformation_slides 3).slides.length ≤ 3 ∧
    ∃ deck, mock_generate "hello".toList 3 = .ok deck ∧
      deck.slides.length ≤ 3 :=
  C9_amended_mock_generate "hello".toList 3 (by norm_num)
